import Mathlib

/-!
Verification of the order-validation and order-construction logic of the
Binance futures CLI bot (`src/main.py`).

The Python code is shallowly embedded:
* floats that carry prices/quantities are modelled as rationals (`ℚ`);
* `Optional[float]` / `Optional[int]` become `Option ℚ` / `Option ℤ`;
* Python truthiness of an optional number (`not x` is true for both
  `None` and `0`) is the `truthy` predicate below;
* `str.isupper` / `str.upper` are modelled on the ASCII fragment, where
  Lean's `Char.isAlpha`, `Char.isUpper`, `Char.isLower` and `Char.toUpper`
  agree with Python's notion of cased/uppercase characters;
* raising `ValueError` becomes returning `Except.error`;
* the network-facing collaborator (the `binance` client library) is an
  explicit environment of call results passed to the `main` pipeline.
-/

namespace BinanceBot

/-! ### Python string primitives (ASCII fragment) -/

/-- Python `s.upper()` on ASCII strings: uppercase every character. -/
def pyUpper (s : String) : String := ⟨s.data.map Char.toUpper⟩

/-- Python `s.isupper()` on ASCII strings: there is at least one cased
character (for ASCII: a letter) and every cased character is uppercase. -/
def pyIsUpper (s : String) : Bool :=
  s.data.any (fun c => c.isAlpha) && s.data.all (fun c => !c.isAlpha || c.isUpper)

/-- Python truthiness of an optional float: `None` and `0.0` are falsy. -/
def truthy : Option ℚ → Bool
  | none => false
  | some x => decide (x ≠ 0)

/-- Python truthiness of an optional int: `None` and `0` are falsy. -/
def truthyInt : Option ℤ → Bool
  | none => false
  | some n => decide (n ≠ 0)

/-! ### CLI arguments and `validate_args` (src/main.py lines 154-169)

`argparse` guarantees `side ∈ {BUY, SELL}` and
`type ∈ {MARKET, LIMIT, STOP, TRAILING_STOP}`; the `Args` structure keeps
them as strings, as the code does, and theorems add the choice
restriction as a hypothesis where it matters. -/

/-- Validation errors raised by `validate_args` (Python `ValueError`s),
tagged by which rule raised them. -/
inductive VError where
  | invalidSymbol
  | missingPrice
  | missingStopPrice
  | missingTrailingDelta
  | invalidQuantity
deriving DecidableEq, Repr

/-- The exact `ValueError` message text from `src/main.py`. -/
def VError.message : VError → String
  | .invalidSymbol => "Symbol must be uppercase (e.g., BTCUSDT)"
  | .missingPrice => "Limit orders require --price"
  | .missingStopPrice => "Stop orders require --stop_price"
  | .missingTrailingDelta => "Trailing stop orders require --trailing_delta"
  | .invalidQuantity => "Quantity must be positive"

/-- The parsed CLI arguments that `validate_args` and `place_order` see. -/
structure Args where
  symbol : String
  side : String
  type : String
  quantity : ℚ
  price : Option ℚ := none
  stop_price : Option ℚ := none
  trailing_delta : Option ℤ := none

/-- Embedding of `validate_args` (src/main.py lines 154-169): the five
checks in source order, each raising on its condition.  Python's
`not args.price` is `truthy args.price = false`. -/
def validate_args (a : Args) : Except VError Unit :=
  if pyIsUpper a.symbol = false then .error .invalidSymbol
  else if a.type = "LIMIT" ∧ truthy a.price = false then .error .missingPrice
  else if a.type = "STOP" ∧ truthy a.stop_price = false then .error .missingStopPrice
  else if a.type = "TRAILING_STOP" ∧ truthyInt a.trailing_delta = false then
    .error .missingTrailingDelta
  else if a.quantity ≤ 0 then .error .invalidQuantity
  else .ok ()

/-- The five validation rules of the spec, indexed 1-5 in the order the
spec lists them, with the violation condition each rule checks in the
code.  `ruleViolated a i = true` means input `a` violates rule `i`. -/
def ruleViolated (a : Args) : ℕ → Bool
  | 1 => decide (pyIsUpper a.symbol = false)
  | 2 => decide (a.type = "LIMIT" ∧ truthy a.price = false)
  | 3 => decide (a.type = "STOP" ∧ truthy a.stop_price = false)
  | 4 => decide (a.type = "TRAILING_STOP" ∧ truthyInt a.trailing_delta = false)
  | 5 => decide (a.quantity ≤ 0)
  | _ => false

/-- The error each validation rule reports. -/
def errOf : ℕ → VError
  | 1 => .invalidSymbol
  | 2 => .missingPrice
  | 3 => .missingStopPrice
  | 4 => .missingTrailingDelta
  | _ => .invalidQuantity

/-! ### `place_order` parameter construction (src/main.py lines 65-112) -/

/-- The order-type mapping dict of `place_order` (lines 78-83). -/
def type_map : List (String × String) :=
  [("MARKET", "MARKET"), ("LIMIT", "LIMIT"),
   ("STOP", "STOP_MARKET"), ("TRAILING_STOP", "TRAILING_STOP_MARKET")]

/-- `type_map.get(order_type, order_type)` (line 88). -/
def mapped_type (t : String) : String := (type_map.lookup t).getD t

/-- The outgoing `params` dict built by `place_order`.  A `none` field
means the key is absent from the dict.  `activationPrice` is set to the
(possibly `None`) `stop_price`, so its value is itself an option. -/
structure OrderParams where
  symbol : String
  side : String
  type : String
  quantity : ℚ
  timestamp : ℕ
  price : Option ℚ := none
  timeInForce : Option String := none
  stopPrice : Option ℚ := none
  activationPrice : Option (Option ℚ) := none
  callbackRate : Option ℤ := none
  workingType : Option String := none

/-- Embedding of the params construction in `place_order`
(src/main.py lines 85-104): base dict, then three truthiness-guarded
updates.  `ts` stands for `int(time.time() * 1000)`. -/
def place_order_params (symbol side order_type : String) (quantity : ℚ)
    (price stop_price : Option ℚ) (trailing_delta : Option ℤ) (ts : ℕ) : OrderParams :=
  let base : OrderParams :=
    { symbol := pyUpper symbol, side := side, type := mapped_type order_type,
      quantity := quantity, timestamp := ts }
  let p1 := if truthy price then
      { base with price := price, timeInForce := some "GTC" } else base
  let p2 := if truthy stop_price then { p1 with stopPrice := stop_price } else p1
  if truthyInt trailing_delta then
    { p2 with activationPrice := some stop_price, callbackRate := trailing_delta,
              workingType := some "MARK_PRICE" }
  else p2

/-- `place_order` as `main` calls it (src/main.py lines 220-228): every
optional CLI argument is forwarded regardless of the order type. -/
def place_order_from (a : Args) (ts : ℕ) : OrderParams :=
  place_order_params a.symbol a.side a.type a.quantity a.price a.stop_price a.trailing_delta ts

/-! ### `_validate_quantity` (src/main.py lines 121-139) -/

/-- One entry of a symbol's `filters` list in the exchange info. -/
structure LotFilter where
  filterType : String
  minQty : ℚ := 0
  maxQty : ℚ := 0
  stepSize : ℚ := 0

/-- One entry of the `symbols` list in the exchange info. -/
structure SymbolInfo where
  symbol : String
  filters : List LotFilter

/-- Python `round` on an exact rational: round half to even. -/
def pyRound (x : ℚ) : ℤ :=
  if x - ⌊x⌋ < 1/2 then ⌊x⌋
  else if 1/2 < x - ⌊x⌋ then ⌊x⌋ + 1
  else if ⌊x⌋ % 2 = 0 then ⌊x⌋ else ⌊x⌋ + 1

/-- The inner loop of `_validate_quantity`: first `LOT_SIZE` filter of a
symbol entry, yielding `(minQty, maxQty, stepSize)`. -/
def findLotFilter : List LotFilter → Option (ℚ × ℚ × ℚ)
  | [] => none
  | f :: rest =>
    if f.filterType = "LOT_SIZE" then some (f.minQty, f.maxQty, f.stepSize)
    else findLotFilter rest

/-- The outer loop of `_validate_quantity`: first symbol entry matching
the symbol that carries a `LOT_SIZE` filter. -/
def findLot : List SymbolInfo → String → Option (ℚ × ℚ × ℚ)
  | [], _ => none
  | si :: rest, s =>
    if si.symbol = s then
      match findLotFilter si.filters with
      | some v => some v
      | none => findLot rest s
    else findLot rest s

/-- Embedding of `_validate_quantity` (src/main.py lines 121-139): range
check against the `LOT_SIZE` filter, then `round(quantity / step_size) *
step_size`; quantity returned unchanged when no filter matches. -/
def validate_quantity (info : List SymbolInfo) (symbol : String) (quantity : ℚ) :
    Except String ℚ :=
  match findLot info symbol with
  | some (mn, mx, st) =>
    if quantity < mn ∨ quantity > mx then
      .error ("Quantity must be between " ++ toString mn ++ " and " ++ toString mx)
    else .ok ((pyRound (quantity / st) : ℚ) * st)
  | none => .ok quantity

/-! ### The `main` pipeline (src/main.py lines 171-245) -/

/-- Modelled from the spec: the external API collaborator (the `binance`
client library, out of scope of this repository) reports failures as a
structured error carrying a status code and a message, and its textual
form surfaces both with the message verbatim. -/
structure ApiError where
  status_code : ℤ
  message : String

/-- Modelled from the spec: `str(e)` of the collaborator's structured
error — the status code and the verbatim message. -/
def ApiError.text (e : ApiError) : String :=
  "APIError(code=" ++ toString e.status_code ++ "): " ++ e.message

/-- The read-only order result returned by the exchange (spec section 3). -/
structure OrderResult where
  orderId : ℕ
  symbol : String
  type : String
  side : String
  origQty : ℚ
  status : String
  price : Option ℚ := none
  stopPrice : Option ℚ := none

/-- The results of the (at most three) network calls `main` can make, in
call order: the connection test in `__init__`, the balance fetch, and
the order submission. -/
structure Env where
  connect : Except ApiError Unit
  balance : Except ApiError ℚ
  submit : Except ApiError OrderResult

/-- The balance line printed before trading (line 217). -/
def balanceLine (b : ℚ) : String :=
  "\n💰 Available USDT balance: " ++ toString b

/-- The order-result display (lines 231-241), with its two conditional
lines. -/
def resultLines (r : OrderResult) : String :=
  "\n🎯 Order Result:" ++
  "\nOrder ID: " ++ toString r.orderId ++
  "\nSymbol: " ++ r.symbol ++
  "\nType: " ++ r.type ++
  "\nSide: " ++ r.side ++
  "\nQuantity: " ++ toString r.origQty ++
  "\nStatus: " ++ r.status ++
  (match r.price with | some p => "\nPrice: " ++ toString p | none => "") ++
  (match r.stopPrice with | some sp => "\nStop Price: " ++ toString sp | none => "")

/-- Embedding of `main` (src/main.py lines 202-245) after argument
parsing: validate, check credentials, connect, fetch balance, submit;
any raised error is printed as `"\n Error: " ++ text` and the process
exits 1, otherwise the results are printed and the process exits 0.
Returns `(exit code, stdout)`. -/
def mainRun (a : Args) (keys : Option (String × String)) (env : Env) : ℕ × String :=
  match validate_args a with
  | .error e => (1, "\n Error: " ++ e.message)
  | .ok _ =>
    match keys with
    | none => (1, "\n Error: API keys must be provided via CLI or .env file")
    | some _ =>
      match env.connect with
      | .error e => (1, "\n Error: " ++ e.text)
      | .ok _ =>
        match env.balance with
        | .error e => (1, "\n Error: " ++ e.text)
        | .ok b =>
          match env.submit with
          | .error e => (1, balanceLine b ++ ("\n Error: " ++ e.text))
          | .ok r => (0, balanceLine b ++ resultLines r)

/-! ### Character-level lemmas for the ASCII case model -/

theorem toNat_ofNat_valid (n : Nat) (h : n.isValidChar) : (Char.ofNat n).toNat = n := by
  rw [Char.ofNat, dif_pos h]
  rfl

theorem uint32_le_iff (a b : UInt32) : a ≤ b ↔ a.toNat ≤ b.toNat := by
  simp [UInt32.le_def, BitVec.le_def, UInt32.toNat]

theorem isLower_iff (c : Char) : c.isLower = true ↔ 97 ≤ c.toNat ∧ c.toNat ≤ 122 := by
  simp only [Char.isLower, Bool.and_eq_true, decide_eq_true_eq, ge_iff_le]
  rw [uint32_le_iff, uint32_le_iff]
  exact Iff.rfl

theorem isUpper_iff (c : Char) : c.isUpper = true ↔ 65 ≤ c.toNat ∧ c.toNat ≤ 90 := by
  simp only [Char.isUpper, Bool.and_eq_true, decide_eq_true_eq, ge_iff_le]
  rw [uint32_le_iff, uint32_le_iff]
  exact Iff.rfl

theorem toUpper_eq_self_iff (c : Char) : c.toUpper = c ↔ c.isLower = false := by
  rw [Char.toUpper]
  constructor
  · intro h
    by_contra hl
    rw [Bool.not_eq_false, isLower_iff] at hl
    rw [if_pos ⟨hl.1, hl.2⟩] at h
    have hvalid : (c.toNat - 32).isValidChar := by
      left; omega
    have := congrArg Char.toNat h
    rw [toNat_ofNat_valid _ hvalid] at this
    omega
  · intro h
    rw [Bool.eq_false_iff, Ne, isLower_iff] at h
    rw [if_neg]
    omega

theorem notAlpha_or_upper_iff (c : Char) :
    (!c.isAlpha || c.isUpper) = true ↔ c.isLower = false := by
  cases hL : c.isLower <;> cases hU : c.isUpper <;>
    simp [Char.isAlpha, hL, hU]
  have h1 := (isLower_iff c).1 hL
  have h2 := (isUpper_iff c).1 hU
  omega

theorem map_toUpper_eq_self (l : List Char) :
    l.map Char.toUpper = l ↔ ∀ c ∈ l, Char.toUpper c = c := by
  induction l with
  | nil => simp
  | cons c cs ih =>
    simp only [List.map_cons, List.cons.injEq, List.mem_cons, ih]
    constructor
    · rintro ⟨h1, h2⟩ x hx
      rcases hx with rfl | hx
      · exact h1
      · exact h2 x hx
    · intro h
      exact ⟨h c (Or.inl rfl), fun x hx => h x (Or.inr hx)⟩

/-- `isupper` characterised: the string equals its own uppercasing and
contains at least one letter. -/
theorem pyIsUpper_iff (s : String) :
    pyIsUpper s = true ↔ (pyUpper s = s ∧ s.data.any (fun c => c.isAlpha) = true) := by
  unfold pyIsUpper
  rw [Bool.and_eq_true]
  have hup : pyUpper s = s ↔ s.data.map Char.toUpper = s.data := by
    constructor
    · intro h
      exact congrArg String.data h
    · intro h
      unfold pyUpper
      rw [h]
  rw [hup, map_toUpper_eq_self, List.all_eq_true]
  constructor
  · rintro ⟨h1, h2⟩
    refine ⟨fun c hc => ?_, h1⟩
    rw [toUpper_eq_self_iff]
    exact (notAlpha_or_upper_iff c).1 (h2 c hc)
  · rintro ⟨h1, h2⟩
    refine ⟨h2, fun c hc => ?_⟩
    rw [notAlpha_or_upper_iff]
    rw [← toUpper_eq_self_iff]
    exact h1 c hc

/-! ### Helper lemmas about `validate_args` -/

theorem truthy_eq_false_iff (o : Option ℚ) :
    truthy o = false ↔ o = none ∨ o = some 0 := by
  cases o with
  | none => simp [truthy]
  | some x =>
    simp only [truthy, decide_eq_false_iff_not, not_not, Option.some.injEq]
    constructor
    · intro h; right; exact h
    · rintro (h | h)
      · exact Option.noConfusion h
      · exact h

theorem truthyInt_eq_false_iff (o : Option ℤ) :
    truthyInt o = false ↔ o = none ∨ o = some 0 := by
  cases o with
  | none => simp [truthyInt]
  | some n =>
    simp only [truthyInt, decide_eq_false_iff_not, not_not, Option.some.injEq]
    constructor
    · intro h; right; exact h
    · rintro (h | h)
      · exact Option.noConfusion h
      · exact h

/-- `validate_args` succeeds iff none of the five rules is violated. -/
theorem validate_args_ok_iff (a : Args) :
    validate_args a = .ok () ↔
      pyIsUpper a.symbol = true ∧
      (a.type = "LIMIT" → truthy a.price = true) ∧
      (a.type = "STOP" → truthy a.stop_price = true) ∧
      (a.type = "TRAILING_STOP" → truthyInt a.trailing_delta = true) ∧
      0 < a.quantity := by
  unfold validate_args
  split_ifs with h1 h2 h3 h4 h5 <;>
    simp_all [not_and_or, not_le, Bool.not_eq_false, Bool.not_eq_true]

/-- `validate_args` computes the error of the first violated rule, in
the order the spec lists the rules, and succeeds iff no rule is
violated. -/
theorem validate_args_first_violation (a : Args) :
    validate_args a =
      match [1, 2, 3, 4, 5].find? (fun i => ruleViolated a i) with
      | some i => Except.error (errOf i)
      | none => Except.ok () := by
  unfold validate_args ruleViolated
  by_cases h1 : pyIsUpper a.symbol = false <;>
  by_cases h2 : a.type = "LIMIT" ∧ truthy a.price = false <;>
  by_cases h3 : a.type = "STOP" ∧ truthy a.stop_price = false <;>
  by_cases h4 : a.type = "TRAILING_STOP" ∧ truthyInt a.trailing_delta = false <;>
  by_cases h5 : a.quantity ≤ 0 <;>
    simp [List.find?, errOf, h1, h2, h3, h4, h5]

/-! ### C1: symbol validation vs `s == s.upper()` -/

/-- C1 counterexample: the claim says validation accepts `s` iff `s`
equals its own uppercase form.  The symbol `"123"` equals its own
uppercase form, yet `validate_args` rejects it with the invalid-symbol
error, because Python `isupper` also demands at least one cased
character. -/
theorem C1_counterexample :
    pyUpper "123" = "123" ∧
    validate_args { symbol := "123", side := "BUY", type := "MARKET", quantity := 1 } =
      .error .invalidSymbol := by
  constructor
  · decide
  · rfl

/-- C1 (amended): validation rejects a symbol with the invalid-symbol
error exactly when it is NOT the case that the symbol equals its own
uppercase form AND contains at least one (cased) letter; i.e.
acceptance past rule 1 is Python `isupper`, which adds the
at-least-one-letter requirement to `s == s.upper()`. -/
theorem C1_amended (a : Args) :
    validate_args a = .error .invalidSymbol ↔
      ¬(pyUpper a.symbol = a.symbol ∧ a.symbol.data.any (fun c => c.isAlpha) = true) := by
  rw [← pyIsUpper_iff]
  unfold validate_args
  constructor
  · intro h hIs
    rw [if_neg (by rw [hIs]; simp)] at h
    split at h
    · exact VError.noConfusion (Except.error.inj h)
    split at h
    · exact VError.noConfusion (Except.error.inj h)
    split at h
    · exact VError.noConfusion (Except.error.inj h)
    split at h
    · exact VError.noConfusion (Except.error.inj h)
    · exact Except.noConfusion h
  · intro h
    rw [if_pos]
    cases hIs : pyIsUpper a.symbol
    · rfl
    · exact absurd hIs h

/-- `validate_args` reports the missing-price error iff rule 1 passes,
the type is LIMIT and the price is falsy. -/
theorem validate_args_error_missingPrice_iff (a : Args) :
    validate_args a = .error .missingPrice ↔
      pyIsUpper a.symbol = true ∧ a.type = "LIMIT" ∧ truthy a.price = false := by
  unfold validate_args
  split_ifs with h1 h2 h3 h4 h5 <;> simp_all

/-! ### C5: fail-fast rule ordering -/

/-- C5: `validate_args` is fail-fast in the spec's rule order: on every
input it reports exactly the error of the first violated rule among
rules 1-5, and succeeds iff none is violated; in particular a lowercase
symbol together with a non-positive quantity reports the invalid-symbol
error. -/
theorem C5_fail_fast :
    (∀ a : Args, validate_args a =
      match [1, 2, 3, 4, 5].find? (fun i => ruleViolated a i) with
      | some i => Except.error (errOf i)
      | none => Except.ok ()) ∧
    validate_args { symbol := "btcusdt", side := "BUY", type := "MARKET", quantity := -1 } =
      .error .invalidSymbol := by
  constructor
  · exact validate_args_first_violation
  · rfl

/-! ### C6: wire order-type mapping -/

/-- C6: the wire mapping sends STOP to STOP_MARKET and TRAILING_STOP to
TRAILING_STOP_MARKET while MARKET and LIMIT pass through unchanged, and
the outgoing params always carry the mapped type. -/
theorem C6_type_mapping :
    (mapped_type "STOP" = "STOP_MARKET" ∧
     mapped_type "TRAILING_STOP" = "TRAILING_STOP_MARKET" ∧
     mapped_type "MARKET" = "MARKET" ∧
     mapped_type "LIMIT" = "LIMIT") ∧
    ∀ (a : Args) (ts : ℕ), (place_order_from a ts).type = mapped_type a.type := by
  refine ⟨⟨rfl, rfl, rfl, rfl⟩, ?_⟩
  intro a ts
  unfold place_order_from place_order_params
  split_ifs <;> rfl

/-! ### C10: zero conflated with absence -/

/-- C10: validation conflates an explicitly supplied `0` with absence:
a STOP order with stop price `0` fails with the missing-stop-price
error, a LIMIT order with price `0` fails with the missing-price error,
and a TRAILING_STOP order with trailing delta `0` fails with the
missing-trailing-delta error. -/
theorem C10_zero_is_missing (a : Args) (hsym : pyIsUpper a.symbol = true) :
    (a.type = "STOP" → a.stop_price = some 0 →
      validate_args a = .error .missingStopPrice) ∧
    (a.type = "LIMIT" → a.price = some 0 →
      validate_args a = .error .missingPrice) ∧
    (a.type = "TRAILING_STOP" → a.trailing_delta = some 0 →
      validate_args a = .error .missingTrailingDelta) := by
  refine ⟨?_, ?_, ?_⟩ <;> intro hty hval <;>
    simp [validate_args, truthy, truthyInt, hsym, hty, hval]

/-- C10 witness: the three zero-valued requests at concrete inputs. -/
theorem C10_witness :
    validate_args { symbol := "BTCUSDT", side := "SELL", type := "STOP",
                    quantity := 1, stop_price := some 0 } = .error .missingStopPrice ∧
    validate_args { symbol := "BTCUSDT", side := "BUY", type := "LIMIT",
                    quantity := 1, price := some 0 } = .error .missingPrice ∧
    validate_args { symbol := "BTCUSDT", side := "BUY", type := "TRAILING_STOP",
                    quantity := 1, trailing_delta := some 0 } = .error .missingTrailingDelta := by
  refine ⟨?_, ?_, ?_⟩
  · exact (C10_zero_is_missing _ (by decide)).1 rfl rfl
  · exact (C10_zero_is_missing _ (by decide)).2.1 rfl rfl
  · exact (C10_zero_is_missing _ (by decide)).2.2 rfl rfl

/-! ### C4: LIMIT price rule -/

/-- C4 counterexample: the claim says a LIMIT order whose price is not
strictly greater than 0 fails with the missing-price error.  A LIMIT
order with the negative price `-1` passes validation entirely, because
the code only tests Python truthiness (`not args.price`). -/
theorem C4_counterexample :
    validate_args { symbol := "BTCUSDT", side := "BUY", type := "LIMIT",
                    quantity := 1, price := some (-1) } = .ok () ∧
    ¬((-1 : ℚ) > 0) := by
  constructor
  · rfl
  · norm_num

/-- C4 (amended): for a LIMIT request whose symbol passed rule 1,
validation fails with the missing-price error iff the price is absent
or exactly `0` (a nonzero price — even a negative one — passes the
rule); when it fails, `main` produces the error exit without consulting
the network environment at all. -/
theorem C4_amended (a : Args) (hty : a.type = "LIMIT") (hsym : pyIsUpper a.symbol = true) :
    (validate_args a = .error .missingPrice ↔ (a.price = none ∨ a.price = some 0)) ∧
    (validate_args a = .error .missingPrice →
      ∀ (keys : Option (String × String)) (env : Env),
        mainRun a keys env = (1, "\n Error: " ++ VError.message .missingPrice)) := by
  constructor
  · rw [validate_args_error_missingPrice_iff, ← truthy_eq_false_iff]
    simp [hsym, hty]
  · intro h keys env
    unfold mainRun
    rw [h]

/-- C4 witness: the spec's own scenario — a LIMIT order for BTCUSDT
without a price fails with the missing-price error and `main` exits 1
with that message for every environment. -/
theorem C4_witness :
    (validate_args { symbol := "BTCUSDT", side := "BUY", type := "LIMIT",
                     quantity := 1/100 } = .error .missingPrice) ∧
    mainRun { symbol := "BTCUSDT", side := "BUY", type := "LIMIT", quantity := 1/100 }
      none { connect := .ok (), balance := .ok 0, submit := .error ⟨500, "never called"⟩ } =
      (1, "\n Error: " ++ VError.message .missingPrice) := by
  have h := C4_amended { symbol := "BTCUSDT", side := "BUY", type := "LIMIT",
                         quantity := 1/100 } rfl (by decide)
  have hv : validate_args { symbol := "BTCUSDT", side := "BUY", type := "LIMIT",
                            quantity := 1/100 } = .error .missingPrice :=
    h.1.mpr (Or.inl rfl)
  exact ⟨hv, h.2 hv _ _⟩

/-! ### C8: trailing delta range -/

/-- C8 counterexample: the claim says a TRAILING_STOP request whose
trailing delta lies outside 1-100 does not pass validation; the delta
`101` is outside 1-100 yet the request passes validation. -/
theorem C8_counterexample :
    validate_args { symbol := "BTCUSDT", side := "BUY", type := "TRAILING_STOP",
                    quantity := 1, trailing_delta := some 101 } = .ok () ∧
    ¬((1 : ℤ) ≤ 101 ∧ (101 : ℤ) ≤ 100) := by
  constructor
  · rfl
  · decide

/-- C8 (amended): a validated TRAILING_STOP request carries some nonzero
trailing delta, and conversely ANY nonzero delta — the 1-100 range of
the CLI help text is not enforced — passes validation when the other
rules hold. -/
theorem C8_amended (a : Args) (hty : a.type = "TRAILING_STOP") :
    (validate_args a = .ok () → ∃ d : ℤ, a.trailing_delta = some d ∧ d ≠ 0) ∧
    (pyIsUpper a.symbol = true → 0 < a.quantity →
      ∀ d : ℤ, d ≠ 0 → a.trailing_delta = some d → validate_args a = .ok ()) := by
  constructor
  · intro h
    have hc := ((validate_args_ok_iff a).1 h).2.2.2.1 hty
    cases hd : a.trailing_delta with
    | none => rw [hd] at hc; exact Bool.noConfusion hc
    | some d =>
      refine ⟨d, rfl, ?_⟩
      rw [hd] at hc
      simpa [truthyInt] using hc
  · intro hsym hq d hd htd
    refine (validate_args_ok_iff a).2 ⟨hsym, ?_, ?_, ?_, hq⟩
    · intro h; rw [hty] at h; exact absurd h (by decide)
    · intro h; rw [hty] at h; exact absurd h (by decide)
    · intro _
      rw [htd]
      simp [truthyInt, hd]

/-- C8 witness: a negative trailing delta (outside 1-100) passes
validation for a concrete TRAILING_STOP request. -/
theorem C8_witness :
    validate_args { symbol := "ETHUSDT", side := "SELL", type := "TRAILING_STOP",
                    quantity := 2, trailing_delta := some (-5) } = .ok () := by
  exact (C8_amended _ rfl).2 (by decide) (by norm_num) (-5) (by decide) rfl

/-! ### Rounding lemmas for `_validate_quantity` -/

/-- `pyRound` returns a nearest integer: no integer is strictly closer. -/
theorem pyRound_nearest (x : ℚ) (k : ℤ) : |(pyRound x : ℚ) - x| ≤ |(k : ℚ) - x| := by
  have hfl : ((⌊x⌋ : ℤ) : ℚ) ≤ x := Int.floor_le x
  have hfu : x < ((⌊x⌋ : ℤ) : ℚ) + 1 := Int.lt_floor_add_one x
  have hk2 : ((k : ℚ) ≤ ((⌊x⌋ : ℤ) : ℚ)) ∨ (((⌊x⌋ : ℤ) : ℚ) + 1 ≤ (k : ℚ)) := by
    rcases le_or_lt k ⌊x⌋ with h | h
    · left; exact_mod_cast h
    · right; exact_mod_cast h
  have ha : (k : ℚ) - x ≤ |(k : ℚ) - x| := le_abs_self _
  have hb : x - (k : ℚ) ≤ |(k : ℚ) - x| := by
    rw [abs_sub_comm]; exact le_abs_self _
  unfold pyRound
  split_ifs with h1 h2 h3 <;>
    rw [abs_sub_le_iff] <;>
    rcases hk2 with hk | hk <;>
    constructor <;>
    push_cast <;>
    linarith

/-- Scaled to multiples of a positive step: `round(q / st) * st` is a
nearest multiple of `st` to `q`. -/
theorem pyRound_nearest_multiple (q st : ℚ) (hst : 0 < st) (k : ℤ) :
    |(pyRound (q / st) : ℚ) * st - q| ≤ |(k : ℚ) * st - q| := by
  have key : ∀ m : ℚ, |m * st - q| = |m - q / st| * st := by
    intro m
    rw [show m * st - q = (m - q / st) * st by field_simp, abs_mul, abs_of_pos hst]
  rw [key, key]
  exact mul_le_mul_of_nonneg_right (pyRound_nearest (q / st) k) (le_of_lt hst)

/-! ### C2: quantity rounding -/

/-- C2 counterexample: the claim says the rounded quantity stays within
`[min, max]`.  With `LOT_SIZE` bounds `[1, 10]` and step `3`, the
in-range quantity `1` is rounded to `0`, which lies below the minimum. -/
theorem C2_counterexample :
    validate_quantity [⟨"BTCUSDT", [⟨"LOT_SIZE", 1, 10, 3⟩]⟩] "BTCUSDT" 1 = .ok 0 ∧
    ¬((1 : ℚ) ≤ 0) := by
  constructor
  · norm_num [validate_quantity, findLot, findLotFilter, pyRound]
  · norm_num

/-- C2 (amended): for a symbol with a `LOT_SIZE` filter `(mn, mx, st)`,
`st > 0`, an in-range quantity is rounded to `round(q / st) * st` — an
integer multiple of `st` nearest to `q`, which may fall OUTSIDE
`[mn, mx]` — and an out-of-range quantity is rejected with the
out-of-range error. -/
theorem C2_amended (info : List SymbolInfo) (s : String) (q mn mx st : ℚ)
    (hfind : findLot info s = some (mn, mx, st)) (hst : 0 < st) :
    ((mn ≤ q ∧ q ≤ mx) →
      validate_quantity info s q = .ok ((pyRound (q / st) : ℚ) * st) ∧
      ∀ k : ℤ, |(pyRound (q / st) : ℚ) * st - q| ≤ |(k : ℚ) * st - q|) ∧
    ((q < mn ∨ mx < q) →
      validate_quantity info s q =
        .error ("Quantity must be between " ++ toString mn ++ " and " ++ toString mx)) := by
  constructor
  · rintro ⟨hlo, hhi⟩
    constructor
    · unfold validate_quantity
      simp only [hfind]
      rw [if_neg]
      rintro (h | h) <;> linarith
    · intro k
      exact pyRound_nearest_multiple q st hst k
  · intro h
    unfold validate_quantity
    simp only [hfind]
    rw [if_pos]
    rcases h with h | h
    · exact Or.inl h
    · exact Or.inr h

/-- C2 witness: step `1/2` on `[1, 10]`; the quantity `9/4` rounds to the
multiple `round(9/2) * 1/2 = 2`, and no multiple of `1/2` (e.g. `5/2`)
is closer. -/
theorem C2_witness :
    validate_quantity [⟨"BTCUSDT", [⟨"LOT_SIZE", 1, 10, 1/2⟩]⟩] "BTCUSDT" (9/4) =
      .ok ((pyRound ((9/4) / (1/2)) : ℚ) * (1/2)) ∧
    |(pyRound ((9/4) / (1/2)) : ℚ) * (1/2) - 9/4| ≤ |((5 : ℤ) : ℚ) * (1/2) - 9/4| := by
  have h := (C2_amended [⟨"BTCUSDT", [⟨"LOT_SIZE", 1, 10, 1/2⟩]⟩] "BTCUSDT" (9/4) 1 10 (1/2)
      rfl (by norm_num)).1 ⟨by norm_num, by norm_num⟩
  exact ⟨h.1, h.2 5⟩

/-! ### C3: optional fields vs order type -/

/-- C3 counterexample: the claim says a MARKET order never carries price
or stopPrice and that no optional field of a different type is ever
attached.  A validated MARKET request that also supplies `--price 100`
produces outgoing params of type MARKET carrying `price` and
`timeInForce`, because `place_order` attaches fields by truthiness of
the inputs, not by order type. -/
theorem C3_counterexample :
    validate_args { symbol := "BTCUSDT", side := "BUY", type := "MARKET",
                    quantity := 1/100, price := some 100 } = .ok () ∧
    (place_order_from { symbol := "BTCUSDT", side := "BUY", type := "MARKET",
                        quantity := 1/100, price := some 100 } 0).type = "MARKET" ∧
    (place_order_from { symbol := "BTCUSDT", side := "BUY", type := "MARKET",
                        quantity := 1/100, price := some 100 } 0).price = some 100 ∧
    (place_order_from { symbol := "BTCUSDT", side := "BUY", type := "MARKET",
                        quantity := 1/100, price := some 100 } 0).timeInForce = some "GTC" := by
  refine ⟨?_, rfl, rfl, rfl⟩
  exact (validate_args_ok_iff _).2 ⟨by decide, fun h => absurd h (by decide),
    fun h => absurd h (by decide), fun h => absurd h (by decide), by norm_num⟩

/-- C3 (amended): optional params are attached by truthiness of the
optional inputs, independent of the order type; consequently a
VALIDATED request that supplies no optional inputs beyond those its
type requires carries exactly the type's fields: nothing extra for
MARKET, price/timeInForce for LIMIT, stopPrice for STOP, and
activationPrice (holding the absent stop price)/callbackRate/workingType
for TRAILING_STOP. -/
theorem C3_amended (a : Args) (ts : ℕ)
    (hok : validate_args a = .ok ())
    (hp : a.type ≠ "LIMIT" → a.price = none)
    (hs : a.type ≠ "STOP" → a.stop_price = none)
    (ht : a.type ≠ "TRAILING_STOP" → a.trailing_delta = none) :
    (a.type = "MARKET" →
      (place_order_from a ts).price = none ∧
      (place_order_from a ts).timeInForce = none ∧
      (place_order_from a ts).stopPrice = none ∧
      (place_order_from a ts).activationPrice = none ∧
      (place_order_from a ts).callbackRate = none ∧
      (place_order_from a ts).workingType = none) ∧
    (a.type = "LIMIT" →
      (place_order_from a ts).price = a.price ∧
      (place_order_from a ts).timeInForce = some "GTC" ∧
      (place_order_from a ts).stopPrice = none ∧
      (place_order_from a ts).activationPrice = none ∧
      (place_order_from a ts).callbackRate = none ∧
      (place_order_from a ts).workingType = none) ∧
    (a.type = "STOP" →
      (place_order_from a ts).stopPrice = a.stop_price ∧
      (place_order_from a ts).price = none ∧
      (place_order_from a ts).timeInForce = none ∧
      (place_order_from a ts).activationPrice = none ∧
      (place_order_from a ts).callbackRate = none ∧
      (place_order_from a ts).workingType = none) ∧
    (a.type = "TRAILING_STOP" →
      (place_order_from a ts).activationPrice = some none ∧
      (place_order_from a ts).callbackRate = a.trailing_delta ∧
      (place_order_from a ts).workingType = some "MARK_PRICE" ∧
      (place_order_from a ts).price = none ∧
      (place_order_from a ts).timeInForce = none ∧
      (place_order_from a ts).stopPrice = none) := by
  have hiff := (validate_args_ok_iff a).1 hok
  refine ⟨?_, ?_, ?_, ?_⟩ <;> intro hty
  · have hbp : truthy a.price = false := by
      simp [truthy, hp (by rw [hty]; decide)]
    have hbs : truthy a.stop_price = false := by
      simp [truthy, hs (by rw [hty]; decide)]
    have hbt : truthyInt a.trailing_delta = false := by
      simp [truthyInt, ht (by rw [hty]; decide)]
    simp [place_order_from, place_order_params, hbp, hbs, hbt]
  · have hbs : truthy a.stop_price = false := by
      simp [truthy, hs (by rw [hty]; decide)]
    have hbt : truthyInt a.trailing_delta = false := by
      simp [truthyInt, ht (by rw [hty]; decide)]
    have hbp := hiff.2.1 hty
    simp [place_order_from, place_order_params, hbp, hbs, hbt]
  · have hbp : truthy a.price = false := by
      simp [truthy, hp (by rw [hty]; decide)]
    have hbt : truthyInt a.trailing_delta = false := by
      simp [truthyInt, ht (by rw [hty]; decide)]
    have hbs := hiff.2.2.1 hty
    simp [place_order_from, place_order_params, hbp, hbs, hbt]
  · have hbp : truthy a.price = false := by
      simp [truthy, hp (by rw [hty]; decide)]
    have hs' := hs (by rw [hty]; decide)
    have hbs : truthy a.stop_price = false := by simp [truthy, hs']
    have hbt := hiff.2.2.2.1 hty
    simp [place_order_from, place_order_params, hbp, hbs, hbt, hs']

/-- C3 witness: the spec's MARKET scenario — `BTCUSDT BUY MARKET 0.01`
with no optional inputs carries neither price nor stopPrice. -/
theorem C3_witness :
    (place_order_from { symbol := "BTCUSDT", side := "BUY", type := "MARKET",
                        quantity := 1/100 } 0).price = none ∧
    (place_order_from { symbol := "BTCUSDT", side := "BUY", type := "MARKET",
                        quantity := 1/100 } 0).stopPrice = none := by
  have hok : validate_args { symbol := "BTCUSDT", side := "BUY", type := "MARKET",
                             quantity := 1/100 } = .ok () :=
    (validate_args_ok_iff _).2 ⟨by decide, fun h => absurd h (by decide),
      fun h => absurd h (by decide), fun h => absurd h (by decide), by norm_num⟩
  have h := (C3_amended { symbol := "BTCUSDT", side := "BUY", type := "MARKET",
                          quantity := 1/100 } 0 hok
      (fun _ => rfl) (fun _ => rfl) (fun _ => rfl)).1 rfl
  exact ⟨h.1, h.2.2.1⟩

/-! ### C7: trailing-stop and GTC field fixing -/

/-- C7: whenever the trailing delta is set (truthy), the outgoing params
fix the working price type to MARK_PRICE, copy the request's stop price
into the activation price, and carry the delta as callbackRate; and
whenever the price is set (truthy), the time-in-force is fixed to GTC. -/
theorem C7_trailing_fields (a : Args) (ts : ℕ) :
    (∀ d : ℤ, a.trailing_delta = some d → d ≠ 0 →
      (place_order_from a ts).workingType = some "MARK_PRICE" ∧
      (place_order_from a ts).activationPrice = some a.stop_price ∧
      (place_order_from a ts).callbackRate = some d) ∧
    (∀ p : ℚ, a.price = some p → p ≠ 0 →
      (place_order_from a ts).timeInForce = some "GTC") := by
  constructor
  · intro d hd hdz
    cases hbp : truthy a.price <;> cases hbs : truthy a.stop_price <;>
      simp [place_order_from, place_order_params, truthyInt, hd, hdz, hbp, hbs]
  · intro p hp hpz
    have htp : truthy a.price = true := by simp [truthy, hp, hpz]
    cases hbs : truthy a.stop_price <;> cases hbt : truthyInt a.trailing_delta <;>
      simp [place_order_from, place_order_params, htp, hbs, hbt]

/-- C7 witness: a TRAILING_STOP request with stop price 20000 and delta
5 gets MARK_PRICE working type and activation price 20000; a LIMIT
request with price 50000 gets GTC. -/
theorem C7_witness :
    (place_order_from { symbol := "BTCUSDT", side := "SELL", type := "TRAILING_STOP",
                        quantity := 1, stop_price := some 20000,
                        trailing_delta := some 5 } 0).workingType = some "MARK_PRICE" ∧
    (place_order_from { symbol := "BTCUSDT", side := "SELL", type := "TRAILING_STOP",
                        quantity := 1, stop_price := some 20000,
                        trailing_delta := some 5 } 0).activationPrice = some (some 20000) ∧
    (place_order_from { symbol := "BTCUSDT", side := "BUY", type := "LIMIT",
                        quantity := 1, price := some 50000 } 0).timeInForce = some "GTC" := by
  have h1 := (C7_trailing_fields { symbol := "BTCUSDT", side := "SELL",
                                   type := "TRAILING_STOP", quantity := 1,
                                   stop_price := some 20000,
                                   trailing_delta := some 5 } 0).1 5 rfl (by decide)
  have h2 := (C7_trailing_fields { symbol := "BTCUSDT", side := "BUY", type := "LIMIT",
                                   quantity := 1, price := some 50000 } 0).2 50000 rfl
    (by norm_num)
  exact ⟨h1.1, h1.2.1, h2⟩

/-! ### C9: API-error surfacing and exit codes -/

/-- C9: when the collaborator rejects the submission with a structured
error, `main` prints the balance line followed by the error line that
carries the error's message verbatim (the single submission result is
consulted once; there is no retry path), and exits 1; and the exit code
is 0 only when the submission succeeded. -/
theorem C9_api_error :
    (∀ (a : Args) (ks : String × String) (env : Env) (b : ℚ) (e : ApiError),
      validate_args a = .ok () → env.connect = .ok () → env.balance = .ok b →
      env.submit = .error e →
      mainRun a (some ks) env = (1, balanceLine b ++ ("\n Error: " ++ e.text)) ∧
      ∃ pre : String, (mainRun a (some ks) env).2 = pre ++ e.message) ∧
    (∀ (a : Args) (keys : Option (String × String)) (env : Env),
      (mainRun a keys env).1 = 0 → ∃ r, env.submit = .ok r) := by
  constructor
  · intro a ks env b e hv hc hb hs
    have hm : mainRun a (some ks) env = (1, balanceLine b ++ ("\n Error: " ++ e.text)) := by
      unfold mainRun
      simp only [hv, hc, hb, hs]
    refine ⟨hm, ?_⟩
    refine ⟨balanceLine b ++ ("\n Error: " ++
      ("APIError(code=" ++ toString e.status_code ++ "): ")), ?_⟩
    rw [hm]
    show balanceLine b ++ ("\n Error: " ++ e.text) = _
    simp [ApiError.text, String.append_assoc]
  · intro a keys env h
    unfold mainRun at h
    cases hv : validate_args a with
    | error e => simp only [hv] at h; exact absurd h one_ne_zero
    | ok u =>
      simp only [hv] at h
      cases keys with
      | none => exact absurd h one_ne_zero
      | some ks =>
        cases hc : env.connect with
        | error e => simp only [hc] at h; exact absurd h one_ne_zero
        | ok u2 =>
          simp only [hc] at h
          cases hb : env.balance with
          | error e => simp only [hb] at h; exact absurd h one_ne_zero
          | ok b =>
            simp only [hb] at h
            cases hs : env.submit with
            | error e => simp only [hs] at h; exact absurd h one_ne_zero
            | ok r => exact ⟨r, rfl⟩

/-- C9 witness: the spec's scenario — the collaborator answers the
submission with status 400 and message "insufficient margin"; the run
exits 1 and its output ends with that exact message. -/
theorem C9_witness :
    mainRun { symbol := "BTCUSDT", side := "BUY", type := "MARKET", quantity := 1 }
        (some ("key", "secret"))
        { connect := .ok (), balance := .ok 1000,
          submit := .error ⟨400, "insufficient margin"⟩ } =
      (1, balanceLine 1000 ++ ("\n Error: " ++ ApiError.text ⟨400, "insufficient margin"⟩)) := by
  exact (C9_api_error.1 { symbol := "BTCUSDT", side := "BUY", type := "MARKET",
                          quantity := 1 } ("key", "secret")
      { connect := .ok (), balance := .ok 1000,
        submit := .error ⟨400, "insufficient margin"⟩ } 1000
      ⟨400, "insufficient margin"⟩ rfl rfl rfl rfl).1

end BinanceBot
